import Mathlib

/-! # Verification of the stock-intelligence scoring and pattern engine

Shallow embedding of the scoring / pattern-detection / backtesting core of
the repository (files `stock_intelligence_v2.5.2_secure.py` and
`tests/deprecated/stock_intelligence.py`).  Python floats are modelled by
exact rationals (the reals only where the source applies `math.tanh`);
Python `round(x, n)` is modelled by integer rounding of `x * 10^n`
(the two agree away from exact half-way points); heterogeneous dicts with
optional numeric fields are modelled by structures of `Option ℚ` fields, so
a `safe_float(tech.get(k))` read is a plain field access.  An absent key and
a key stored as Python `None` are both `none`. -/

namespace StockIntel

/-- Python `round(x, 2)` over ℚ: round `x * 100` to an integer, divide back. -/
def round2 (x : ℚ) : ℚ := ((round (x * 100) : ℤ) : ℚ) / 100

/-- Python `round(x, 1)` over ℚ. -/
def round1 (x : ℚ) : ℚ := ((round (x * 10) : ℤ) : ℚ) / 10

/-- The technical-indicator snapshot dict (`tech`): every numeric field the
scoring core reads, each optional, plus the raw close history. -/
structure Tech where
  current_price : Option ℚ := none
  volume : Option ℚ := none
  avg_volume_20d : Option ℚ := none
  ma_50 : Option ℚ := none
  ma_200 : Option ℚ := none
  prev_ma_50 : Option ℚ := none
  prev_ma_200 : Option ℚ := none
  rsi : Option ℚ := none
  macd : Option ℚ := none
  macd_signal : Option ℚ := none
  macd_previous : Option ℚ := none
  volatility_30d : Option ℚ := none
  price_change_1m : Option ℚ := none
  daily_closes_full : Option (List ℚ) := none
deriving DecidableEq

/-- The fundamental snapshot dict (`fund`), numeric fields used by scoring. -/
structure Fund where
  market_cap : Option ℚ := none
  pe_ratio : Option ℚ := none
  beta : Option ℚ := none
  revenue_ttm : Option ℚ := none
  eps : Option ℚ := none
  debt_to_equity : Option ℚ := none
deriving DecidableEq

/-- The shared macroeconomic snapshot dict. -/
structure MacroSnap where
  fed_funds_rate : Option ℚ := none
  unemployment : Option ℚ := none
  consumer_sentiment : Option ℚ := none
deriving DecidableEq

/-- `_detect_cross(prev_a, prev_b, cur_a, cur_b)`: (bullish, bearish) cross
flags; `(False, False)` when any input is `None` or no strict flip occurred. -/
def detectCross (prev_a prev_b cur_a cur_b : Option ℚ) : Bool × Bool :=
  match prev_a, prev_b, cur_a, cur_b with
  | some pa, some pb, some ca, some cb =>
    let was_above := decide (pa > pb)
    let is_above := decide (ca > cb)
    if !was_above && is_above then (true, false)
    else if was_above && !is_above then (false, true)
    else (false, false)
  | _, _, _, _ => (false, false)

/-- `_map_signal(score)`: the five signal-label bands, closed upper bounds,
first match wins. -/
def mapSignal (score : ℚ) : String :=
  if score ≤ 2 then "🚨 Extremely Bearish"
  else if score ≤ 2.5 then "📉 Bearish"
  else if score ≤ 3.5 then "✋ Neutral"
  else if score ≤ 4 then "📈 Bullish"
  else "🚀 Extremely Bullish"

/-- `_derive_prev_mas(tech)`: when the close history holds at least 201
closes, `setdefault` the prior moving averages `prev_ma_50 = mean of
closes[-51:-1]` and `prev_ma_200 = mean of closes[-201:-1]` into the dict.
The Python function mutates `tech` in place; here it returns the updated
snapshot. -/
def derivePrevMas (t : Tech) : Tech :=
  match t.daily_closes_full with
  | none => t
  | some closes =>
    if closes.length < 201 then t
    else
      let p50 := ((closes.drop (closes.length - 51)).dropLast).sum / 50
      let p200 := ((closes.drop (closes.length - 201)).dropLast).sum / 200
      { t with
        prev_ma_50 := t.prev_ma_50 <|> some p50
        prev_ma_200 := t.prev_ma_200 <|> some p200 }

/-- The MA-crossover flags of `compute_pattern_score`:
`_detect_cross(prev_ma50, prev_ma200, ma50, ma200)`. -/
def maCross (t : Tech) : Bool × Bool :=
  detectCross t.prev_ma_50 t.prev_ma_200 t.ma_50 t.ma_200

/-- Trend test `price > ma50 > ma200` (all three present). -/
def trendUp (t : Tech) : Bool :=
  match t.current_price, t.ma_50, t.ma_200 with
  | some price, some a, some b => decide (price > a ∧ a > b)
  | _, _, _ => false

/-- Trend test `price < ma50 < ma200` (all three present). -/
def trendDown (t : Tech) : Bool :=
  match t.current_price, t.ma_50, t.ma_200 with
  | some price, some a, some b => decide (price < a ∧ a < b)
  | _, _, _ => false

/-- RSI oversold test `rsi < 30`. -/
def rsiLow (t : Tech) : Bool :=
  match t.rsi with
  | some r => decide (r < 30)
  | none => false

/-- RSI overbought test `rsi > 70`. -/
def rsiHigh (t : Tech) : Bool :=
  match t.rsi with
  | some r => decide (r > 70)
  | none => false

/-- The MACD (bullish, bearish) flags of `compute_pattern_score`: the simple
current-state comparison `macd > macd_signal` / `macd < macd_signal` is set
first whenever both are present; when `macd_previous` is present too, a flip
of the previous-vs-signal relation overrides the pair, and a no-flip case
keeps the fallback values. -/
def macdFlags (t : Tech) : Bool × Bool :=
  let fallback : Bool × Bool :=
    match t.macd, t.macd_signal with
    | some a, some s => (decide (a > s), decide (a < s))
    | _, _ => (false, false)
  match t.macd, t.macd_signal, t.macd_previous with
  | some a, some s, some p =>
    let prev_above := decide (p > s)
    let curr_above := decide (a > s)
    if !prev_above && curr_above then (true, false)
    else if prev_above && !curr_above then (false, true)
    else fallback
  | _, _, _ => fallback

/-- Volume surge test: both fields present, `avg_vol > 0` (Python also
requires `avg_vol` truthy, implied by `> 0`), and `vol / avg_vol ≥ 1.8`. -/
def volSurge (t : Tech) : Bool :=
  match t.volume, t.avg_volume_20d with
  | some v, some a => decide (a > 0 ∧ v / a ≥ 1.8)
  | _, _ => false

/-- Volume dump test: both fields present, `avg_vol > 0`, ratio `≤ 0.6`. -/
def volDump (t : Tech) : Bool :=
  match t.volume, t.avg_volume_20d with
  | some v, some a => decide (a > 0 ∧ v / a ≤ 0.6)
  | _, _ => false

/-- The detected-pattern list built by `compute_pattern_score` before the
`Mixed/Range` fallback, in the source's append order (the trend, RSI, MACD
and volume blocks are if/elif pairs). -/
def detectedRaw (t : Tech) : List String :=
  (if (maCross t).1 then ["Golden Cross"] else []) ++
  (if (maCross t).2 then ["Death Cross"] else []) ++
  (if trendUp t then ["Strong Uptrend"] else if trendDown t then ["Strong Downtrend"] else []) ++
  (if rsiLow t then ["RSI Oversold"] else if rsiHigh t then ["RSI Overbought"] else []) ++
  (if (macdFlags t).1 then ["MACD Bullish Crossover"]
   else if (macdFlags t).2 then ["MACD Bearish Crossover"] else []) ++
  (if volSurge t then ["Bullish Volume Surge"] else if volDump t then ["Bearish Volume Dump"] else [])

/-- The signed total of the additive (v2.5.2) scoring increments: ±1.5 for a
MA cross, ±0.5 for trend structure and RSI extremes, ±0.3 for MACD, ±0.4 for
volume, accumulated onto the 3.0 base by the source. -/
def scoreDelta (t : Tech) : ℚ :=
  ((if (maCross t).1 then (1.5 : ℚ) else 0) - (if (maCross t).2 then (1.5 : ℚ) else 0))
  + (if trendUp t then (0.5 : ℚ) else if trendDown t then -(0.5 : ℚ) else 0)
  + (if rsiLow t then (0.5 : ℚ) else if rsiHigh t then -(0.5 : ℚ) else 0)
  + (if (macdFlags t).1 then (0.3 : ℚ) else if (macdFlags t).2 then -(0.3 : ℚ) else 0)
  + (if volSurge t then (0.4 : ℚ) else if volDump t then -(0.4 : ℚ) else 0)

/-- The (score, signal, detected) triple of `compute_pattern_score`. -/
structure PatternResult where
  score : ℚ
  signal : String
  detected : List String
deriving DecidableEq

/-- `compute_pattern_score(tech)` of v2.5.2 (additive mode).  The first
component is the snapshot after `_derive_prev_mas`'s in-place mutation; the
second is the returned triple. -/
def computePatternScore (t : Tech) : Tech × PatternResult :=
  let t2 := derivePrevMas t
  let score := max 1 (min 5 (round2 (3 + scoreDelta t2)))
  let det := detectedRaw t2
  (t2, ⟨score, mapSignal score, if det = [] then ["Mixed/Range"] else det⟩)

/-- No detection condition of `compute_pattern_score` triggered. -/
def noPattern (t : Tech) : Bool :=
  !(maCross t).1 && !(maCross t).2 && !trendUp t && !trendDown t &&
  !rsiLow t && !rsiHigh t && !(macdFlags t).1 && !(macdFlags t).2 &&
  !volSurge t && !volDump t

/-- The shared tail of every category scorer: neutral 3.0 when no metric was
available (`maxp == 0`), else `round(1.0 + points/maxp * 4.0, 2)`. -/
def bandScore (p m : ℚ) : ℚ := if m = 0 then 3 else round2 (1 + p / m * 4)

/-- Technical block 1: price vs MA50 vs MA200 ordering, 3 points max. -/
def techB1 (t : Tech) : ℚ × ℚ :=
  match t.current_price, t.ma_50, t.ma_200 with
  | some price, some a, some b =>
    ((if price > a ∧ a > b then 3 else if price > a then 2 else if price > b then 1 else 0 : ℚ), 3)
  | _, _, _ => (0, 0)

/-- Technical block 2: RSI neutral band, 2 points max. -/
def techB2 (t : Tech) : ℚ × ℚ :=
  match t.rsi with
  | some r =>
    ((if 40 ≤ r ∧ r ≤ 60 then 2
      else if (30 ≤ r ∧ r < 40) ∨ (60 < r ∧ r ≤ 70) then 1 else 0 : ℚ), 2)
  | none => (0, 0)

/-- Technical block 3: MACD above signal, 2 points max. -/
def techB3 (t : Tech) : ℚ × ℚ :=
  match t.macd, t.macd_signal with
  | some a, some s => ((if a > s then 2 else if a > s * 0.9 then 1 else 0 : ℚ), 2)
  | _, _ => (0, 0)

/-- Technical block 4: volume above 1.2× average, 1 point max. -/
def techB4 (t : Tech) : ℚ × ℚ :=
  match t.volume, t.avg_volume_20d with
  | some v, some a => ((if v > a * 1.2 then 1 else 0 : ℚ), 1)
  | _, _ => (0, 0)

/-- Technical block 5: 1-month price change, 2 points max. -/
def techB5 (t : Tech) : ℚ × ℚ :=
  match t.price_change_1m with
  | some c => ((if c > 0.10 then 2 else if c > 0 then 1 else 0 : ℚ), 2)
  | none => (0, 0)

/-- The (points, maxp) accumulation of `_score_technical`. -/
def techTally (t : Tech) : ℚ × ℚ := techB1 t + techB2 t + techB3 t + techB4 t + techB5 t

/-- `StockScorer._score_technical`. -/
def scoreTechnical (t : Tech) : ℚ := bandScore (techTally t).1 (techTally t).2

/-- Fundamental block 1: market-cap tier, 3 points max. -/
def fundB1 (f : Fund) : ℚ × ℚ :=
  match f.market_cap with
  | some m =>
    ((if m > 200e9 then 3 else if m > 10e9 then 2 else if m > 2e9 then 1 else 0 : ℚ), 3)
  | none => (0, 0)

/-- Fundamental block 2: P/E band, 2 points max. -/
def fundB2 (f : Fund) : ℚ × ℚ :=
  match f.pe_ratio with
  | some pe =>
    ((if 10 ≤ pe ∧ pe ≤ 25 then 2
      else if (5 ≤ pe ∧ pe < 10) ∨ (25 < pe ∧ pe ≤ 35) then 1 else 0 : ℚ), 2)
  | none => (0, 0)

/-- Fundamental block 3: debt-to-equity, 2 points max. -/
def fundB3 (f : Fund) : ℚ × ℚ :=
  match f.debt_to_equity with
  | some de => ((if de < 0.5 then 2 else if de < 1.0 then 1 else 0 : ℚ), 2)
  | none => (0, 0)

/-- Fundamental block 4: revenue above $10B, 1 point max. -/
def fundB4 (f : Fund) : ℚ × ℚ :=
  match f.revenue_ttm with
  | some rev => ((if rev > 10e9 then 1 else 0 : ℚ), 1)
  | none => (0, 0)

/-- Fundamental block 5: EPS, 2 points max. -/
def fundB5 (f : Fund) : ℚ × ℚ :=
  match f.eps with
  | some e => ((if e > 5 then 2 else if e > 0 then 1 else 0 : ℚ), 2)
  | none => (0, 0)

/-- The (points, maxp) accumulation of `_score_fundamental`. -/
def fundTally (f : Fund) : ℚ × ℚ := fundB1 f + fundB2 f + fundB3 f + fundB4 f + fundB5 f

/-- `StockScorer._score_fundamental`. -/
def scoreFundamental (f : Fund) : ℚ := bandScore (fundTally f).1 (fundTally f).2

/-- Macro block 1: fed-funds-rate tier, 3 points max. -/
def macB1 (m : MacroSnap) : ℚ × ℚ :=
  match m.fed_funds_rate with
  | some rate =>
    ((if rate < 2.0 then 3 else if rate < 4.0 then 2 else if rate < 6.0 then 1 else 0 : ℚ), 3)
  | none => (0, 0)

/-- Macro block 2: unemployment, 2 points max. -/
def macB2 (m : MacroSnap) : ℚ × ℚ :=
  match m.unemployment with
  | some un => ((if un < 4.5 then 2 else if un < 6.0 then 1 else 0 : ℚ), 2)
  | none => (0, 0)

/-- Macro block 3: consumer sentiment, 2 points max. -/
def macB3 (m : MacroSnap) : ℚ × ℚ :=
  match m.consumer_sentiment with
  | some cs => ((if cs > 80 then 2 else if cs > 60 then 1 else 0 : ℚ), 2)
  | none => (0, 0)

/-- The (points, maxp) accumulation of `_score_macro`. -/
def macTally (m : MacroSnap) : ℚ × ℚ := macB1 m + macB2 m + macB3 m

/-- `StockScorer._score_macro`. -/
def scoreMacroSnap (m : MacroSnap) : ℚ := bandScore (macTally m).1 (macTally m).2

/-- Risk block 1: 30-day volatility tier, 3 points max. -/
def riskB1 (t : Tech) : ℚ × ℚ :=
  match t.volatility_30d with
  | some v =>
    ((if v < 0.02 then 3 else if v < 0.05 then 2 else if v < 0.10 then 1 else 0 : ℚ), 3)
  | none => (0, 0)

/-- Risk block 2: market-cap safety, 2 points max. -/
def riskB2 (f : Fund) : ℚ × ℚ :=
  match f.market_cap with
  | some m => ((if m > 100e9 then 2 else if m > 10e9 then 1 else 0 : ℚ), 2)
  | none => (0, 0)

/-- Risk block 3: beta, 2 points max. -/
def riskB3 (f : Fund) : ℚ × ℚ :=
  match f.beta with
  | some b => ((if b < 0.8 then 2 else if b < 1.2 then 1 else 0 : ℚ), 2)
  | none => (0, 0)

/-- The (points, maxp) accumulation of `_score_risk`. -/
def riskTally (t : Tech) (f : Fund) : ℚ × ℚ := riskB1 t + riskB2 f + riskB3 f

/-- `StockScorer._score_risk`. -/
def scoreRisk (t : Tech) (f : Fund) : ℚ := bandScore (riskTally t f).1 (riskTally t f).2

/-- Sentiment block 1: RSI tight-neutral band, 2 points max. -/
def sentB1 (t : Tech) : ℚ × ℚ :=
  match t.rsi with
  | some r =>
    ((if 45 ≤ r ∧ r ≤ 55 then 2
      else if (35 ≤ r ∧ r < 45) ∨ (55 < r ∧ r ≤ 65) then 1 else 0 : ℚ), 2)
  | none => (0, 0)

/-- Sentiment block 2: volume above average, 1 point max. -/
def sentB2 (t : Tech) : ℚ × ℚ :=
  match t.volume, t.avg_volume_20d with
  | some v, some a => ((if v > a then 1 else 0 : ℚ), 1)
  | _, _ => (0, 0)

/-- Sentiment block 3: 1-month change, 2 points max. -/
def sentB3 (t : Tech) : ℚ × ℚ :=
  match t.price_change_1m with
  | some c => ((if c > 0.05 then 2 else if c > 0 then 1 else 0 : ℚ), 2)
  | none => (0, 0)

/-- The (points, maxp) accumulation of `_score_sentiment`. -/
def sentTally (t : Tech) : ℚ × ℚ := sentB1 t + sentB2 t + sentB3 t

/-- `StockScorer._score_sentiment`. -/
def scoreSentiment (t : Tech) : ℚ := bandScore (sentTally t).1 (sentTally t).2

/-- `StockScorer.__init__`'s weights dict, as the ordered key/weight list the
composite loop iterates over.  Sentiment has no entry. -/
def weights : List (String × ℚ) := [("technical", 0.30), ("fundamental", 0.35), ("macro", 0.20), ("risk", 0.15)]

/-- The composite loop of `calculate_scores`: fold over `weights`, looking
each key up in the score dict and accumulating `v * w` for present values,
then `round(·, 2)`. -/
def compositeOf (g : String → Option ℚ) : ℚ :=
  round2 (weights.foldl (fun acc kw =>
    match g kw.1 with
    | some v => acc + v * kw.2
    | none => acc) 0)

/-- The five-entry score dict built by `calculate_scores` before the
composite loop runs. -/
def scoreMap (t f m r s : ℚ) : String → Option ℚ := fun k =>
  if k = "technical" then some t
  else if k = "fundamental" then some f
  else if k = "macro" then some m
  else if k = "risk" then some r
  else if k = "sentiment" then some s
  else none

/-- `StockScorer._recommend`. -/
def recommend (score : ℚ) : String :=
  if score ≥ 4.0 then "Strong Buy"
  else if score ≥ 3.5 then "Buy"
  else if score ≥ 3.0 then "Moderate Buy"
  else if score ≥ 2.5 then "Hold"
  else if score ≥ 2.0 then "Moderate Sell"
  else if score ≥ 1.5 then "Sell"
  else "Strong Sell"

/-- The result dict of `calculate_scores` (`macroScore` is the "macro" key). -/
structure Scores where
  technical : ℚ
  fundamental : ℚ
  macroScore : ℚ
  risk : ℚ
  sentiment : ℚ
  composite : ℚ
  recommendation : String
deriving DecidableEq

/-- `StockScorer.calculate_scores(data)` on the three sub-dicts. -/
def calculateScores (tech : Tech) (fund : Fund) (mac : MacroSnap) : Scores :=
  let t := scoreTechnical tech
  let f := scoreFundamental fund
  let m := scoreMacroSnap mac
  let r := scoreRisk tech fund
  let s := scoreSentiment tech
  let comp := compositeOf (scoreMap t f m r s)
  ⟨t, f, m, r, s, comp, recommend comp⟩

/-! ## The weighted non-linear pattern scorer (deprecated revision)

The deprecated `compute_pattern_score` shares every detection rule with the
v2.5.2 version above but accumulates separate bullish / bearish weight
totals and maps `net = bullish − bearish` through `math.tanh(net * 0.5)`.
Its score is real-valued because of `tanh`. -/

/-- The bullish-weight accumulation of the deprecated
`compute_pattern_score`: Golden Cross 2.5, Strong Uptrend 1.8, RSI Oversold
1.0, MACD Bullish Crossover 1.3, Bullish Volume Surge 1.5, following the
source's if/elif structure. -/
def bullishWeight (t : Tech) : ℚ :=
  (if (maCross t).1 then (2.5 : ℚ) else 0)
  + (if trendUp t then (1.8 : ℚ) else 0)
  + (if rsiLow t then (1.0 : ℚ) else 0)
  + (if (macdFlags t).1 then (1.3 : ℚ) else 0)
  + (if volSurge t then (1.5 : ℚ) else 0)

/-- The bearish-weight accumulation of the deprecated
`compute_pattern_score`: Death Cross 2.5, Strong Downtrend 1.8, RSI
Overbought 1.0, MACD Bearish Crossover 1.3, Bearish Volume Dump 1.5; each
elif arm contributes only when its if arm did not fire. -/
def bearishWeight (t : Tech) : ℚ :=
  (if (maCross t).2 then (2.5 : ℚ) else 0)
  + (if trendUp t then 0 else if trendDown t then (1.8 : ℚ) else 0)
  + (if rsiLow t then 0 else if rsiHigh t then (1.0 : ℚ) else 0)
  + (if (macdFlags t).1 then 0 else if (macdFlags t).2 then (1.3 : ℚ) else 0)
  + (if volSurge t then 0 else if volDump t then (1.5 : ℚ) else 0)

/-- The signed significance weight of a detected-pattern name: bullish
patterns positive, bearish negative, matching `PATTERN_WEIGHTS`. -/
def signedWeight : String → ℚ
  | "Golden Cross" => 2.5
  | "Death Cross" => -2.5
  | "Strong Uptrend" => 1.8
  | "Strong Downtrend" => -1.8
  | "Bullish Volume Surge" => 1.5
  | "Bearish Volume Dump" => -1.5
  | "MACD Bullish Crossover" => 1.3
  | "MACD Bearish Crossover" => -1.3
  | "RSI Oversold" => 1
  | "RSI Overbought" => -1
  | _ => 0

/-- Python `round(x, 2)` over ℝ, for the `tanh`-valued score. -/
noncomputable def round2R (x : ℝ) : ℝ := ((round (x * 100) : ℤ) : ℝ) / 100

/-- `_map_signal` applied to the real-valued weighted score. -/
noncomputable def mapSignalR (score : ℝ) : String :=
  if score ≤ 2 then "🚨 Extremely Bearish"
  else if score ≤ 2.5 then "📉 Bearish"
  else if score ≤ 3.5 then "✋ Neutral"
  else if score ≤ 4 then "📈 Bullish"
  else "🚀 Extremely Bullish"

/-- The real-valued (score, signal, detected) triple of the deprecated
`compute_pattern_score`. -/
structure PatternResultW where
  score : ℝ
  signal : String
  detected : List String

/-- The deprecated `compute_pattern_score(tech)` (weighted non-linear mode):
derive prior MAs, accumulate bullish and bearish weights, map
`net = bullish − bearish` through `scaled = tanh(net * 0.5)`, then
`score = 3.0 + scaled * 2.0`, clamped to [1.0, 5.0] after rounding to two
decimals.  The first component is the mutated snapshot. -/
noncomputable def computePatternScoreW (t : Tech) : Tech × PatternResultW :=
  let t2 := derivePrevMas t
  let net_signal := bullishWeight t2 - bearishWeight t2
  let scaled_signal := Real.tanh ((net_signal : ℝ) * 0.5)
  let score := max 1 (min 5 (round2R (3 + scaled_signal * 2)))
  let det := detectedRaw t2
  (t2, ⟨score, mapSignalR score, if det = [] then ["Mixed/Range"] else det⟩)

/-! ## The pattern backtester (deprecated revision) -/

/-- One daily aggregate bar; only the close is read by the backtester,
optional because `safe_float` may fail on it. -/
structure Bar where
  c : Option ℚ
deriving DecidableEq

/-- `PatternBacktester._get_pattern_direction`: bullish at score ≥ 3.5,
bearish at ≤ 2.5, else neutral (the signal argument is unused). -/
def patternDirection (pattern_score : ℚ) : String :=
  if pattern_score ≥ 3.5 then "bullish"
  else if pattern_score ≤ 2.5 then "bearish"
  else "neutral"

/-- `PatternBacktester._get_expected_move`: score-tier base move, scaled by
1.3 when a high-conviction pattern was detected. -/
def expectedMove (pattern_score : ℚ) (detected_patterns : List String) : ℚ :=
  let base : ℚ :=
    if pattern_score ≥ 4.5 then 0.10
    else if pattern_score ≥ 4.0 then 0.07
    else if pattern_score ≥ 3.5 then 0.05
    else if pattern_score ≤ 2.0 then -0.10
    else if pattern_score ≤ 2.5 then -0.07
    else 0.02
  let high_conviction := ["Golden Cross", "Death Cross", "Bullish Volume Surge", "Bearish Volume Dump"]
  if high_conviction.any (fun p => p ∈ detected_patterns) then base * 1.3 else base

/-- The scan loop of `_find_breakout_day`: Python iterates `i` from 1 to
`len(bars) - 1` over `bars[-i]`, i.e. over the reversed bar list skipping
the oldest bar, continuing past bars whose close is absent. -/
def scanBreakout (direction : String) (pattern_price threshold : ℚ) :
    List Bar → ℕ → Option (ℕ × ℚ)
  | [], _ => none
  | b :: rest, i =>
    match b.c with
    | none => scanBreakout direction pattern_price threshold rest (i + 1)
    | some close =>
      let move := (close - pattern_price) / pattern_price
      if direction = "bullish" ∧ move ≥ threshold then some (i, move)
      else if direction = "bearish" ∧ move ≤ -threshold then some (i, |move|)
      else if direction = "neutral" ∧ |move| ≤ 0.03 then some (i, move)
      else scanBreakout direction pattern_price threshold rest (i + 1)

/-- `PatternBacktester._find_breakout_day(bars, pattern_price,
expected_move, direction)`: threshold is half the expected-move magnitude;
on no breakout the final bar's move is returned (0.0 when the final close is
absent or zero, by Python truthiness). -/
def findBreakoutDay (bars : List Bar) (pattern_price expected_move : ℚ)
    (direction : String) : Option ℕ × ℚ :=
  if bars.length < 2 then (none, 0)
  else
    let threshold := |expected_move| * 0.5
    match scanBreakout direction pattern_price threshold (bars.reverse.take (bars.length - 1)) 1 with
    | some (i, m) => (some i, m)
    | none =>
      match bars.getLast?.bind Bar.c with
      | some fc => (none, if fc = 0 then 0 else (fc - pattern_price) / pattern_price)
      | none => (none, 0)

/-- `PatternBacktester._evaluate_pattern_success`. -/
def evaluatePatternSuccess (direction : String) (actual_move expected_move : ℚ) : Bool :=
  if direction = "neutral" then decide (|actual_move| ≤ 0.03)
  else if direction = "bullish" then decide (actual_move > 0)
  else decide (actual_move < 0)

/-- `PatternBacktester._calculate_accuracy`. -/
def calculateAccuracy (prediction_correct : Bool) (actual_move expected_move : ℚ)
    (direction : String) : ℚ :=
  if !prediction_correct then
    let error_ratio := if expected_move ≠ 0 then |actual_move - expected_move| / |expected_move| else 1
    max 0 (25 - error_ratio * 25)
  else
    let accuracy : ℚ := 50
    let accuracy :=
      if expected_move ≠ 0 then
        accuracy + (1 - min 1 (|actual_move - expected_move| / |expected_move|)) * 50
      else
        accuracy + (1 - min 1 (|actual_move| / 0.05)) * 50
    min 100 (max 0 accuracy)

/-- `PatternBacktester._determine_confidence` (Python truthiness of
`breakout_day` requires it non-`None` and nonzero). -/
def determineConfidence (accuracy : ℚ) (breakout_day : Option ℕ) (lookback_days : ℕ) : String :=
  let quick : Bool :=
    match breakout_day with
    | some d => decide (d ≠ 0 ∧ (d : ℚ) ≤ (lookback_days : ℚ) * 0.3)
    | none => false
  let mid : Bool :=
    match breakout_day with
    | some d => decide (d ≠ 0 ∧ (d : ℚ) ≤ (lookback_days : ℚ) * 0.5)
    | none => false
  if accuracy ≥ 80 ∧ quick = true then "High"
  else if accuracy ≥ 60 ∨ mid = true then "Medium"
  else "Low"

/-- The backtest result dict. -/
structure BTResult where
  accuracy : ℚ
  expected_move : ℚ
  actual_move : ℚ
  days_to_breakout : Option ℕ
  prediction_correct : Bool
  confidence : String
  direction : String
deriving DecidableEq

/-- `PatternBacktester._no_data_result`. -/
def noDataResult : BTResult :=
  ⟨0, 0, 0, none, false, "Low", "unknown"⟩

/-- `PatternBacktester.backtest_pattern`, with the polygon aggregate fetch
replaced by the bar list it returns (oldest first, most recent last; the
source takes `pattern_price` from the most recent bar `bars[-1]`). -/
def backtestPattern (bars : List Bar) (pattern_score : ℚ)
    (detected_patterns : List String) (lookback_days : ℕ) : BTResult :=
  let direction := patternDirection pattern_score
  let expected_move := expectedMove pattern_score detected_patterns
  if bars.length < lookback_days then noDataResult
  else if bars.length < 2 then noDataResult
  else
    match bars.getLast?.bind Bar.c with
    | none => noDataResult
    | some pattern_price =>
      let bd := findBreakoutDay bars pattern_price expected_move direction
      let breakout_day := bd.1
      let actual_move := bd.2
      let prediction_correct := evaluatePatternSuccess direction actual_move expected_move
      let accuracy := calculateAccuracy prediction_correct actual_move expected_move direction
      let confidence := determineConfidence accuracy breakout_day lookback_days
      { accuracy := round1 accuracy
        expected_move := round2 (expected_move * 100)
        actual_move := round2 (actual_move * 100)
        days_to_breakout :=
          match breakout_day with
          | some d => some (if d = 0 then lookback_days else d)
          | none => some lookback_days
        prediction_correct := prediction_correct
        confidence := confidence
        direction := direction }

/-! ## The multi-ticker comparator (deprecated revision) -/

/-- The per-ticker payload `collect_all_data` returns: the three sub-dicts
the scoring core reads (`macroEcon` is the "macro" key). -/
structure RawData where
  technical : Tech
  fund : Fund
  macroEcon : MacroSnap

/-- Python truthiness of the technical dict: empty means no field present
(a dict holding only keys outside this model is not representable). -/
def techIsEmpty (t : Tech) : Bool :=
  t.current_price.isNone && t.volume.isNone && t.avg_volume_20d.isNone &&
  t.ma_50.isNone && t.ma_200.isNone && t.prev_ma_50.isNone && t.prev_ma_200.isNone &&
  t.rsi.isNone && t.macd.isNone && t.macd_signal.isNone && t.macd_previous.isNone &&
  t.volatility_30d.isNone && t.price_change_1m.isNone && t.daily_closes_full.isNone

/-- One entry of the comparator's `analyses` dict: the (possibly mutated)
collected data, the optional pattern triple, and the scores. -/
structure TickerAnalysis where
  data : RawData
  pattern : Option PatternResultW
  scores : Scores

/-- The per-ticker body of `compare_stocks`'s loop after a successful
collection: run the pattern detector on a non-empty technical dict (which
mutates it in place) and score the result. -/
noncomputable def analyzeTicker (d : RawData) : TickerAnalysis :=
  if techIsEmpty d.technical then
    { data := d, pattern := none
      scores := calculateScores d.technical d.fund d.macroEcon }
  else
    let r := computePatternScoreW d.technical
    { data := { d with technical := r.1 }, pattern := some r.2
      scores := calculateScores r.1 d.fund d.macroEcon }

/-- Insert-or-replace on a Python-dict association list. -/
def dictUpsert {α : Type} (d : List (String × α)) (k : String) (v : α) : List (String × α) :=
  if d.any (fun kv => kv.1 = k) then
    d.map (fun kv => if kv.1 = k then (k, v) else kv)
  else d ++ [(k, v)]

/-- One iteration of `compare_stocks`'s collection loop: the body runs in a
`try`, so an exception (a `collect` error) leaves the analyses dict
unchanged and the loop continues with the next ticker. -/
noncomputable def analysesStep (collect : String → Except String RawData)
    (acc : List (String × TickerAnalysis)) (t : String) : List (String × TickerAnalysis) :=
  match collect t with
  | Except.error _ => acc
  | Except.ok d => dictUpsert acc t (analyzeTicker d)

/-- The collection loop of `compare_stocks` over the ticker list. -/
noncomputable def analysesList (collect : String → Except String RawData)
    (tickers : List String) : List (String × TickerAnalysis) :=
  tickers.foldl (analysesStep collect) []

/-- The two shapes `compare_stocks` can return: the explicit error dict
`{'error': ...}`, or the comparison dict (rankings and the recommendation
are further processing of `analyses` and do not affect which shape is
returned). -/
inductive CompareOutcome where
  | comparisonError (msg : String)
  | comparison (tickers : List String) (analyses : List (String × TickerAnalysis))

/-- `StockComparator.compare_stocks(tickers)` in the exception monad: an
`Except.error` result would model an exception escaping to the caller. -/
noncomputable def compareStocks (collect : String → Except String RawData)
    (tickers : List String) : Except String CompareOutcome :=
  let analyses := analysesList collect tickers
  if analyses.length < 2 then
    Except.ok (CompareOutcome.comparisonError "Insufficient data for comparison")
  else
    Except.ok (CompareOutcome.comparison (analyses.map Prod.fst) analyses)

/-! ## Helper lemmas -/

/-- Rounding to the nearest integer is monotone on ℚ. -/
lemma round_mono_rat {x y : ℚ} (h : x ≤ y) : round x ≤ round y := by
  rw [round_eq, round_eq]
  exact Int.floor_mono (by linarith)

/-- Two-decimal rounding keeps a value of [1, 5] inside [1, 5]. -/
lemma round2_mem {x : ℚ} (h1 : 1 ≤ x) (h5 : x ≤ 5) : 1 ≤ round2 x ∧ round2 x ≤ 5 := by
  have l1 : (100 : ℤ) ≤ round (x * 100) := by
    have h := round_mono_rat (show (100 : ℚ) ≤ x * 100 by linarith)
    simpa using h
  have l2 : round (x * 100) ≤ (500 : ℤ) := by
    have h := round_mono_rat (show x * 100 ≤ (500 : ℚ) by linarith)
    simpa using h
  have c1 : (100 : ℚ) ≤ ((round (x * 100) : ℤ) : ℚ) := by exact_mod_cast l1
  have c2 : ((round (x * 100) : ℤ) : ℚ) ≤ 500 := by exact_mod_cast l2
  unfold round2
  constructor
  · rw [le_div_iff (by norm_num : (0 : ℚ) < 100)]
    linarith
  · rw [div_le_iff (by norm_num : (0 : ℚ) < 100)]
    linarith

/-- The category-score band map sends any tally with `0 ≤ points ≤ maxp`
into [1, 5]. -/
lemma bandScore_bounds {p m : ℚ} (h0 : 0 ≤ p) (h1 : p ≤ m) :
    1 ≤ bandScore p m ∧ bandScore p m ≤ 5 := by
  unfold bandScore
  split_ifs with hm
  · norm_num
  · have hmpos : 0 < m := lt_of_le_of_ne (le_trans h0 h1) (Ne.symm hm)
    have hr0 : 0 ≤ p / m := div_nonneg h0 hmpos.le
    have hr1 : p / m ≤ 1 := (div_le_one hmpos).2 h1
    exact round2_mem (by linarith) (by linarith)

lemma techB1_bound (t : Tech) : 0 ≤ (techB1 t).1 ∧ (techB1 t).1 ≤ (techB1 t).2 := by
  unfold techB1
  rcases t.current_price with _ | p <;> rcases t.ma_50 with _ | a <;> rcases t.ma_200 with _ | b <;>
    simp <;> split_ifs <;> norm_num

lemma techB2_bound (t : Tech) : 0 ≤ (techB2 t).1 ∧ (techB2 t).1 ≤ (techB2 t).2 := by
  unfold techB2
  rcases t.rsi with _ | r <;> simp <;> split_ifs <;> norm_num

lemma techB3_bound (t : Tech) : 0 ≤ (techB3 t).1 ∧ (techB3 t).1 ≤ (techB3 t).2 := by
  unfold techB3
  rcases t.macd with _ | a <;> rcases t.macd_signal with _ | s <;>
    simp <;> split_ifs <;> norm_num

lemma techB4_bound (t : Tech) : 0 ≤ (techB4 t).1 ∧ (techB4 t).1 ≤ (techB4 t).2 := by
  unfold techB4
  rcases t.volume with _ | v <;> rcases t.avg_volume_20d with _ | a <;>
    simp <;> split_ifs <;> norm_num

lemma techB5_bound (t : Tech) : 0 ≤ (techB5 t).1 ∧ (techB5 t).1 ≤ (techB5 t).2 := by
  unfold techB5
  rcases t.price_change_1m with _ | c <;> simp <;> split_ifs <;> norm_num

lemma techTally_bound (t : Tech) : 0 ≤ (techTally t).1 ∧ (techTally t).1 ≤ (techTally t).2 := by
  obtain ⟨a1, b1⟩ := techB1_bound t
  obtain ⟨a2, b2⟩ := techB2_bound t
  obtain ⟨a3, b3⟩ := techB3_bound t
  obtain ⟨a4, b4⟩ := techB4_bound t
  obtain ⟨a5, b5⟩ := techB5_bound t
  unfold techTally
  constructor <;> simp only [Prod.fst_add, Prod.snd_add] <;> linarith

lemma fundB1_bound (f : Fund) : 0 ≤ (fundB1 f).1 ∧ (fundB1 f).1 ≤ (fundB1 f).2 := by
  unfold fundB1
  rcases f.market_cap with _ | m <;> simp <;> split_ifs <;> norm_num

lemma fundB2_bound (f : Fund) : 0 ≤ (fundB2 f).1 ∧ (fundB2 f).1 ≤ (fundB2 f).2 := by
  unfold fundB2
  rcases f.pe_ratio with _ | pe <;> simp <;> split_ifs <;> norm_num

lemma fundB3_bound (f : Fund) : 0 ≤ (fundB3 f).1 ∧ (fundB3 f).1 ≤ (fundB3 f).2 := by
  unfold fundB3
  rcases f.debt_to_equity with _ | de <;> simp <;> split_ifs <;> norm_num

lemma fundB4_bound (f : Fund) : 0 ≤ (fundB4 f).1 ∧ (fundB4 f).1 ≤ (fundB4 f).2 := by
  unfold fundB4
  rcases f.revenue_ttm with _ | rev <;> simp <;> split_ifs <;> norm_num

lemma fundB5_bound (f : Fund) : 0 ≤ (fundB5 f).1 ∧ (fundB5 f).1 ≤ (fundB5 f).2 := by
  unfold fundB5
  rcases f.eps with _ | e <;> simp <;> split_ifs <;> norm_num

lemma fundTally_bound (f : Fund) : 0 ≤ (fundTally f).1 ∧ (fundTally f).1 ≤ (fundTally f).2 := by
  obtain ⟨a1, b1⟩ := fundB1_bound f
  obtain ⟨a2, b2⟩ := fundB2_bound f
  obtain ⟨a3, b3⟩ := fundB3_bound f
  obtain ⟨a4, b4⟩ := fundB4_bound f
  obtain ⟨a5, b5⟩ := fundB5_bound f
  unfold fundTally
  constructor <;> simp only [Prod.fst_add, Prod.snd_add] <;> linarith

lemma macB1_bound (m : MacroSnap) : 0 ≤ (macB1 m).1 ∧ (macB1 m).1 ≤ (macB1 m).2 := by
  unfold macB1
  rcases m.fed_funds_rate with _ | r <;> simp <;> split_ifs <;> norm_num

lemma macB2_bound (m : MacroSnap) : 0 ≤ (macB2 m).1 ∧ (macB2 m).1 ≤ (macB2 m).2 := by
  unfold macB2
  rcases m.unemployment with _ | u <;> simp <;> split_ifs <;> norm_num

lemma macB3_bound (m : MacroSnap) : 0 ≤ (macB3 m).1 ∧ (macB3 m).1 ≤ (macB3 m).2 := by
  unfold macB3
  rcases m.consumer_sentiment with _ | c <;> simp <;> split_ifs <;> norm_num

lemma macTally_bound (m : MacroSnap) : 0 ≤ (macTally m).1 ∧ (macTally m).1 ≤ (macTally m).2 := by
  obtain ⟨a1, b1⟩ := macB1_bound m
  obtain ⟨a2, b2⟩ := macB2_bound m
  obtain ⟨a3, b3⟩ := macB3_bound m
  unfold macTally
  constructor <;> simp only [Prod.fst_add, Prod.snd_add] <;> linarith

lemma riskB1_bound (t : Tech) : 0 ≤ (riskB1 t).1 ∧ (riskB1 t).1 ≤ (riskB1 t).2 := by
  unfold riskB1
  rcases t.volatility_30d with _ | v <;> simp <;> split_ifs <;> norm_num

lemma riskB2_bound (f : Fund) : 0 ≤ (riskB2 f).1 ∧ (riskB2 f).1 ≤ (riskB2 f).2 := by
  unfold riskB2
  rcases f.market_cap with _ | m <;> simp <;> split_ifs <;> norm_num

lemma riskB3_bound (f : Fund) : 0 ≤ (riskB3 f).1 ∧ (riskB3 f).1 ≤ (riskB3 f).2 := by
  unfold riskB3
  rcases f.beta with _ | b <;> simp <;> split_ifs <;> norm_num

lemma riskTally_bound (t : Tech) (f : Fund) :
    0 ≤ (riskTally t f).1 ∧ (riskTally t f).1 ≤ (riskTally t f).2 := by
  obtain ⟨a1, b1⟩ := riskB1_bound t
  obtain ⟨a2, b2⟩ := riskB2_bound f
  obtain ⟨a3, b3⟩ := riskB3_bound f
  unfold riskTally
  constructor <;> simp only [Prod.fst_add, Prod.snd_add] <;> linarith

lemma sentB1_bound (t : Tech) : 0 ≤ (sentB1 t).1 ∧ (sentB1 t).1 ≤ (sentB1 t).2 := by
  unfold sentB1
  rcases t.rsi with _ | r <;> simp <;> split_ifs <;> norm_num

lemma sentB2_bound (t : Tech) : 0 ≤ (sentB2 t).1 ∧ (sentB2 t).1 ≤ (sentB2 t).2 := by
  unfold sentB2
  rcases t.volume with _ | v <;> rcases t.avg_volume_20d with _ | a <;>
    simp <;> split_ifs <;> norm_num

lemma sentB3_bound (t : Tech) : 0 ≤ (sentB3 t).1 ∧ (sentB3 t).1 ≤ (sentB3 t).2 := by
  unfold sentB3
  rcases t.price_change_1m with _ | c <;> simp <;> split_ifs <;> norm_num

lemma sentTally_bound (t : Tech) : 0 ≤ (sentTally t).1 ∧ (sentTally t).1 ≤ (sentTally t).2 := by
  obtain ⟨a1, b1⟩ := sentB1_bound t
  obtain ⟨a2, b2⟩ := sentB2_bound t
  obtain ⟨a3, b3⟩ := sentB3_bound t
  unfold sentTally
  constructor <;> simp only [Prod.fst_add, Prod.snd_add] <;> linarith

/-- No metric that `_score_technical` can count is available (each guard of
its five blocks fails). -/
def techNoMetric (t : Tech) : Prop :=
  (t.current_price = none ∨ t.ma_50 = none ∨ t.ma_200 = none) ∧ t.rsi = none
  ∧ (t.macd = none ∨ t.macd_signal = none) ∧ (t.volume = none ∨ t.avg_volume_20d = none)
  ∧ t.price_change_1m = none

/-- No metric that `_score_fundamental` can count is available. -/
def fundNoMetric (f : Fund) : Prop :=
  f.market_cap = none ∧ f.pe_ratio = none ∧ f.debt_to_equity = none
  ∧ f.revenue_ttm = none ∧ f.eps = none

/-- No metric that `_score_macro` can count is available. -/
def macNoMetric (m : MacroSnap) : Prop :=
  m.fed_funds_rate = none ∧ m.unemployment = none ∧ m.consumer_sentiment = none

/-- No metric that `_score_risk` can count is available. -/
def riskNoMetric (t : Tech) (f : Fund) : Prop :=
  t.volatility_30d = none ∧ f.market_cap = none ∧ f.beta = none

/-- No metric that `_score_sentiment` can count is available. -/
def sentNoMetric (t : Tech) : Prop :=
  t.rsi = none ∧ (t.volume = none ∨ t.avg_volume_20d = none) ∧ t.price_change_1m = none

lemma techB1_max_zero (t : Tech) :
    (techB1 t).2 = 0 ↔ (t.current_price = none ∨ t.ma_50 = none ∨ t.ma_200 = none) := by
  unfold techB1
  rcases t.current_price with _ | p <;> rcases t.ma_50 with _ | a <;>
    rcases t.ma_200 with _ | b <;> simp

lemma techB2_max_zero (t : Tech) : (techB2 t).2 = 0 ↔ t.rsi = none := by
  unfold techB2
  rcases t.rsi with _ | r <;> simp

lemma techB3_max_zero (t : Tech) :
    (techB3 t).2 = 0 ↔ (t.macd = none ∨ t.macd_signal = none) := by
  unfold techB3
  rcases t.macd with _ | a <;> rcases t.macd_signal with _ | s <;> simp

lemma techB4_max_zero (t : Tech) :
    (techB4 t).2 = 0 ↔ (t.volume = none ∨ t.avg_volume_20d = none) := by
  unfold techB4
  rcases t.volume with _ | v <;> rcases t.avg_volume_20d with _ | a <;> simp

lemma techB5_max_zero (t : Tech) : (techB5 t).2 = 0 ↔ t.price_change_1m = none := by
  unfold techB5
  rcases t.price_change_1m with _ | c <;> simp

lemma fundB1_max_zero (f : Fund) : (fundB1 f).2 = 0 ↔ f.market_cap = none := by
  unfold fundB1
  rcases f.market_cap with _ | m <;> simp

lemma fundB2_max_zero (f : Fund) : (fundB2 f).2 = 0 ↔ f.pe_ratio = none := by
  unfold fundB2
  rcases f.pe_ratio with _ | pe <;> simp

lemma fundB3_max_zero (f : Fund) : (fundB3 f).2 = 0 ↔ f.debt_to_equity = none := by
  unfold fundB3
  rcases f.debt_to_equity with _ | de <;> simp

lemma fundB4_max_zero (f : Fund) : (fundB4 f).2 = 0 ↔ f.revenue_ttm = none := by
  unfold fundB4
  rcases f.revenue_ttm with _ | rev <;> simp

lemma fundB5_max_zero (f : Fund) : (fundB5 f).2 = 0 ↔ f.eps = none := by
  unfold fundB5
  rcases f.eps with _ | e <;> simp

lemma macB1_max_zero (m : MacroSnap) : (macB1 m).2 = 0 ↔ m.fed_funds_rate = none := by
  unfold macB1
  rcases m.fed_funds_rate with _ | r <;> simp

lemma macB2_max_zero (m : MacroSnap) : (macB2 m).2 = 0 ↔ m.unemployment = none := by
  unfold macB2
  rcases m.unemployment with _ | u <;> simp

lemma macB3_max_zero (m : MacroSnap) : (macB3 m).2 = 0 ↔ m.consumer_sentiment = none := by
  unfold macB3
  rcases m.consumer_sentiment with _ | c <;> simp

lemma riskB1_max_zero (t : Tech) : (riskB1 t).2 = 0 ↔ t.volatility_30d = none := by
  unfold riskB1
  rcases t.volatility_30d with _ | v <;> simp

lemma riskB2_max_zero (f : Fund) : (riskB2 f).2 = 0 ↔ f.market_cap = none := by
  unfold riskB2
  rcases f.market_cap with _ | m <;> simp

lemma riskB3_max_zero (f : Fund) : (riskB3 f).2 = 0 ↔ f.beta = none := by
  unfold riskB3
  rcases f.beta with _ | b <;> simp

lemma sentB1_max_zero (t : Tech) : (sentB1 t).2 = 0 ↔ t.rsi = none := by
  unfold sentB1
  rcases t.rsi with _ | r <;> simp

lemma sentB2_max_zero (t : Tech) :
    (sentB2 t).2 = 0 ↔ (t.volume = none ∨ t.avg_volume_20d = none) := by
  unfold sentB2
  rcases t.volume with _ | v <;> rcases t.avg_volume_20d with _ | a <;> simp

lemma sentB3_max_zero (t : Tech) : (sentB3 t).2 = 0 ↔ t.price_change_1m = none := by
  unfold sentB3
  rcases t.price_change_1m with _ | c <;> simp

/-- A sum of five nonnegative tally maxima vanishes only blockwise. -/
lemma sum5_eq_zero {a b c d e : ℚ} (ha : 0 ≤ a) (hb : 0 ≤ b) (hc : 0 ≤ c) (hd : 0 ≤ d)
    (he : 0 ≤ e) : a + b + c + d + e = 0 ↔ (a = 0 ∧ b = 0 ∧ c = 0 ∧ d = 0 ∧ e = 0) := by
  constructor
  · intro h
    refine ⟨by linarith, by linarith, by linarith, by linarith, by linarith⟩
  · rintro ⟨rfl, rfl, rfl, rfl, rfl⟩
    norm_num

/-- A sum of three nonnegative tally maxima vanishes only blockwise. -/
lemma sum3_eq_zero {a b c : ℚ} (ha : 0 ≤ a) (hb : 0 ≤ b) (hc : 0 ≤ c) :
    a + b + c = 0 ↔ (a = 0 ∧ b = 0 ∧ c = 0) := by
  constructor
  · intro h
    refine ⟨by linarith, by linarith, by linarith⟩
  · rintro ⟨rfl, rfl, rfl⟩
    norm_num

lemma techTally_max_zero (t : Tech) : (techTally t).2 = 0 ↔ techNoMetric t := by
  have n1 := techB1_bound t
  have n2 := techB2_bound t
  have n3 := techB3_bound t
  have n4 := techB4_bound t
  have n5 := techB5_bound t
  unfold techTally techNoMetric
  simp only [Prod.snd_add]
  rw [sum5_eq_zero (n1.1.trans n1.2) (n2.1.trans n2.2) (n3.1.trans n3.2)
    (n4.1.trans n4.2) (n5.1.trans n5.2),
    techB1_max_zero, techB2_max_zero, techB3_max_zero, techB4_max_zero, techB5_max_zero]

lemma fundTally_max_zero (f : Fund) : (fundTally f).2 = 0 ↔ fundNoMetric f := by
  have n1 := fundB1_bound f
  have n2 := fundB2_bound f
  have n3 := fundB3_bound f
  have n4 := fundB4_bound f
  have n5 := fundB5_bound f
  unfold fundTally fundNoMetric
  simp only [Prod.snd_add]
  rw [sum5_eq_zero (n1.1.trans n1.2) (n2.1.trans n2.2) (n3.1.trans n3.2)
    (n4.1.trans n4.2) (n5.1.trans n5.2),
    fundB1_max_zero, fundB2_max_zero, fundB3_max_zero, fundB4_max_zero, fundB5_max_zero]

lemma macTally_max_zero (m : MacroSnap) : (macTally m).2 = 0 ↔ macNoMetric m := by
  have n1 := macB1_bound m
  have n2 := macB2_bound m
  have n3 := macB3_bound m
  unfold macTally macNoMetric
  simp only [Prod.snd_add]
  rw [sum3_eq_zero (n1.1.trans n1.2) (n2.1.trans n2.2) (n3.1.trans n3.2),
    macB1_max_zero, macB2_max_zero, macB3_max_zero]

lemma riskTally_max_zero (t : Tech) (f : Fund) :
    (riskTally t f).2 = 0 ↔ riskNoMetric t f := by
  have n1 := riskB1_bound t
  have n2 := riskB2_bound f
  have n3 := riskB3_bound f
  unfold riskTally riskNoMetric
  simp only [Prod.snd_add]
  rw [sum3_eq_zero (n1.1.trans n1.2) (n2.1.trans n2.2) (n3.1.trans n3.2),
    riskB1_max_zero, riskB2_max_zero, riskB3_max_zero]

lemma sentTally_max_zero (t : Tech) : (sentTally t).2 = 0 ↔ sentNoMetric t := by
  have n1 := sentB1_bound t
  have n2 := sentB2_bound t
  have n3 := sentB3_bound t
  unfold sentTally sentNoMetric
  simp only [Prod.snd_add]
  rw [sum3_eq_zero (n1.1.trans n1.2) (n2.1.trans n2.2) (n3.1.trans n3.2),
    sentB1_max_zero, sentB2_max_zero, sentB3_max_zero]

lemma scoreMap_technical (t f m r s : ℚ) : scoreMap t f m r s "technical" = some t := rfl

lemma scoreMap_fundamental (t f m r s : ℚ) : scoreMap t f m r s "fundamental" = some f := rfl

lemma scoreMap_macroKey (t f m r s : ℚ) : scoreMap t f m r s "macro" = some m := rfl

lemma scoreMap_risk (t f m r s : ℚ) : scoreMap t f m r s "risk" = some r := rfl

/-! ## Claim theorems -/

/-- C1.  For every technical snapshot, `compute_pattern_score` returns a
score within [1.0, 5.0], its signal label is `_map_signal` (the documented
band function) applied to that score, and when no pattern condition
triggered the detected list is exactly `["Mixed/Range"]`. -/
theorem c1_pattern_score_bounds_and_signal : ∀ t : Tech,
    1 ≤ ((computePatternScore t).2).score
    ∧ ((computePatternScore t).2).score ≤ 5
    ∧ ((computePatternScore t).2).signal = mapSignal ((computePatternScore t).2).score
    ∧ (noPattern (derivePrevMas t) = true →
        ((computePatternScore t).2).detected = ["Mixed/Range"]) := by
  intro t
  refine ⟨le_max_left _ _, max_le (by norm_num) (min_le_left _ _), rfl, ?_⟩
  intro h
  simp only [noPattern, Bool.and_eq_true, Bool.not_eq_true'] at h
  obtain ⟨⟨⟨⟨⟨⟨⟨⟨⟨h1, h2⟩, h3⟩, h4⟩, h5⟩, h6⟩, h7⟩, h8⟩, h9⟩, h10⟩ := h
  show (if detectedRaw (derivePrevMas t) = [] then ["Mixed/Range"]
        else detectedRaw (derivePrevMas t)) = ["Mixed/Range"]
  simp [detectedRaw, h1, h2, h3, h4, h5, h6, h7, h8, h9, h10]

/-- C1 witness: on the all-absent snapshot no condition triggers and the
result is the neutral sentinel with score 3. -/
theorem c1_witness :
    1 ≤ ((computePatternScore {}).2).score
    ∧ ((computePatternScore {}).2).score ≤ 5
    ∧ ((computePatternScore {}).2).signal = mapSignal ((computePatternScore {}).2).score
    ∧ ((computePatternScore {}).2).detected = ["Mixed/Range"] := by
  obtain ⟨a, b, c, d⟩ := c1_pattern_score_bounds_and_signal {}
  exact ⟨a, b, c, d (by decide)⟩

/-- C2.  `calculate_scores` always sets
`composite = round(0.30 t + 0.35 f + 0.20 m + 0.15 r, 2)`, and replacing the
sentiment entry of the score dict by any value leaves the composite loop's
output unchanged. -/
theorem c2_composite_weighted_sum : ∀ (tech : Tech) (fund : Fund) (mac : MacroSnap),
    (calculateScores tech fund mac).composite
      = round2 (0.30 * scoreTechnical tech + 0.35 * scoreFundamental fund
          + 0.20 * scoreMacroSnap mac + 0.15 * scoreRisk tech fund)
    ∧ ∀ s1 s2 : ℚ,
        compositeOf (scoreMap (scoreTechnical tech) (scoreFundamental fund)
            (scoreMacroSnap mac) (scoreRisk tech fund) s1)
          = compositeOf (scoreMap (scoreTechnical tech) (scoreFundamental fund)
            (scoreMacroSnap mac) (scoreRisk tech fund) s2) := by
  intro tech fund mac
  constructor
  · show compositeOf (scoreMap (scoreTechnical tech) (scoreFundamental fund)
        (scoreMacroSnap mac) (scoreRisk tech fund) (scoreSentiment tech)) = _
    unfold compositeOf weights
    simp only [List.foldl_cons, List.foldl_nil, scoreMap_technical,
      scoreMap_fundamental, scoreMap_macroKey, scoreMap_risk]
    congr 1
    ring
  · intro s1 s2
    rfl

/-- C3.  Every category scorer returns exactly 3.0 when no metric of its
category is available (equivalently, its accumulated `maxp` is 0), otherwise
`round(1 + points/maxp * 4, 2)`, and its result always lies in [1.0, 5.0]. -/
theorem c3_category_score_bands : ∀ (tech : Tech) (fund : Fund) (mac : MacroSnap),
    (1 ≤ scoreTechnical tech ∧ scoreTechnical tech ≤ 5
      ∧ ((techTally tech).2 = 0 ↔ techNoMetric tech)
      ∧ scoreTechnical tech
          = (if (techTally tech).2 = 0 then 3
             else round2 (1 + (techTally tech).1 / (techTally tech).2 * 4)))
    ∧ (1 ≤ scoreFundamental fund ∧ scoreFundamental fund ≤ 5
      ∧ ((fundTally fund).2 = 0 ↔ fundNoMetric fund)
      ∧ scoreFundamental fund
          = (if (fundTally fund).2 = 0 then 3
             else round2 (1 + (fundTally fund).1 / (fundTally fund).2 * 4)))
    ∧ (1 ≤ scoreMacroSnap mac ∧ scoreMacroSnap mac ≤ 5
      ∧ ((macTally mac).2 = 0 ↔ macNoMetric mac)
      ∧ scoreMacroSnap mac
          = (if (macTally mac).2 = 0 then 3
             else round2 (1 + (macTally mac).1 / (macTally mac).2 * 4)))
    ∧ (1 ≤ scoreRisk tech fund ∧ scoreRisk tech fund ≤ 5
      ∧ ((riskTally tech fund).2 = 0 ↔ riskNoMetric tech fund)
      ∧ scoreRisk tech fund
          = (if (riskTally tech fund).2 = 0 then 3
             else round2 (1 + (riskTally tech fund).1 / (riskTally tech fund).2 * 4)))
    ∧ (1 ≤ scoreSentiment tech ∧ scoreSentiment tech ≤ 5
      ∧ ((sentTally tech).2 = 0 ↔ sentNoMetric tech)
      ∧ scoreSentiment tech
          = (if (sentTally tech).2 = 0 then 3
             else round2 (1 + (sentTally tech).1 / (sentTally tech).2 * 4))) := by
  intro tech fund mac
  obtain ⟨t0, t1⟩ := techTally_bound tech
  obtain ⟨f0, f1⟩ := fundTally_bound fund
  obtain ⟨m0, m1⟩ := macTally_bound mac
  obtain ⟨r0, r1⟩ := riskTally_bound tech fund
  obtain ⟨s0, s1⟩ := sentTally_bound tech
  obtain ⟨tb1, tb2⟩ := bandScore_bounds t0 t1
  obtain ⟨fb1, fb2⟩ := bandScore_bounds f0 f1
  obtain ⟨mb1, mb2⟩ := bandScore_bounds m0 m1
  obtain ⟨rb1, rb2⟩ := bandScore_bounds r0 r1
  obtain ⟨sb1, sb2⟩ := bandScore_bounds s0 s1
  exact ⟨⟨tb1, tb2, techTally_max_zero tech, rfl⟩,
    ⟨fb1, fb2, fundTally_max_zero fund, rfl⟩,
    ⟨mb1, mb2, macTally_max_zero mac, rfl⟩,
    ⟨rb1, rb2, riskTally_max_zero tech fund, rfl⟩,
    ⟨sb1, sb2, sentTally_max_zero tech, rfl⟩⟩

/-- The all-absent technical dict. -/
def emptyTech : Tech := {}

/-- The all-absent fundamental dict. -/
def emptyFund : Fund := {}

/-- The all-absent macro dict. -/
def emptyMacroSnap : MacroSnap := {}

/-- C4 counterexample: on empty technical/fundamental/macro dicts the
recommendation is not "Hold" (the composite is 3.0, and `_recommend` maps
3.0 to "Moderate Buy" because the ≥ 3.0 arm fires first). -/
theorem c4_counterexample :
    (calculateScores emptyTech emptyFund emptyMacroSnap).recommendation ≠ "Hold" := by
  have h : (calculateScores emptyTech emptyFund emptyMacroSnap).recommendation = "Moderate Buy" := by
    norm_num [calculateScores, emptyTech, emptyFund, emptyMacroSnap, scoreTechnical,
      scoreFundamental, scoreMacroSnap, scoreRisk, scoreSentiment, techTally, techB1, techB2,
      techB3, techB4, techB5, fundTally, fundB1, fundB2, fundB3, fundB4, fundB5, macTally,
      macB1, macB2, macB3, riskTally, riskB1, riskB2, riskB3, sentTally, sentB1, sentB2,
      sentB3, bandScore, compositeOf, weights, scoreMap, recommend, round2, round_eq]
  rw [h]
  decide

/-- C4 amended: on empty inputs all five category scores and the composite
equal 3.0 and the recommendation is "Moderate Buy". -/
theorem c4_empty_inputs_amended :
    (calculateScores emptyTech emptyFund emptyMacroSnap).technical = 3
    ∧ (calculateScores emptyTech emptyFund emptyMacroSnap).fundamental = 3
    ∧ (calculateScores emptyTech emptyFund emptyMacroSnap).macroScore = 3
    ∧ (calculateScores emptyTech emptyFund emptyMacroSnap).risk = 3
    ∧ (calculateScores emptyTech emptyFund emptyMacroSnap).sentiment = 3
    ∧ (calculateScores emptyTech emptyFund emptyMacroSnap).composite = 3
    ∧ (calculateScores emptyTech emptyFund emptyMacroSnap).recommendation = "Moderate Buy" := by
  norm_num [calculateScores, emptyTech, emptyFund, emptyMacroSnap, scoreTechnical,
    scoreFundamental, scoreMacroSnap, scoreRisk, scoreSentiment, techTally, techB1, techB2,
    techB3, techB4, techB5, fundTally, fundB1, fundB2, fundB3, fundB4, fundB5, macTally,
    macB1, macB2, macB3, riskTally, riskB1, riskB2, riskB3, sentTally, sentB1, sentB2,
    sentB3, bandScore, compositeOf, weights, scoreMap, recommend, round2, round_eq]

/-- The C5 counterexample snapshot: MACD line 2, signal line 1, previous
MACD line 2 — line above signal both before and after, so no flip. -/
def c5tech : Tech := { macd := some 2, macd_signal := some 1, macd_previous := some 2 }

/-- C5 counterexample: with the full three-point MACD history present and no
flip of the previous-vs-signal relation (the MA-style cross detector applied
to the triple reports nothing), `compute_pattern_score` still detects a MACD
crossover pattern. -/
theorem c5_counterexample :
    detectCross c5tech.macd_previous c5tech.macd_signal c5tech.macd c5tech.macd_signal
        = (false, false)
    ∧ "MACD Bullish Crossover" ∈ ((computePatternScore c5tech).2).detected := by
  constructor
  · decide
  · decide

/-- C5 amended: with all three MACD values present, a bullish crossover is
reported exactly when `macd > signal` (the fallback comparison applies even
when history is available), and a bearish crossover exactly when
`macd ≤ signal` and (`macd < signal` or `previous > signal`); the flip logic
only adds the bearish equality-boundary case.  Without the previous value
the simple comparison decides both flags. -/
theorem c5_macd_crossover_amended : ∀ t : Tech,
    (∀ a s p : ℚ, t.macd = some a → t.macd_signal = some s → t.macd_previous = some p →
      (((macdFlags t).1 = true ↔ a > s)
        ∧ ((macdFlags t).2 = true ↔ (a ≤ s ∧ (a < s ∨ p > s)))))
    ∧ (∀ a s : ℚ, t.macd = some a → t.macd_signal = some s → t.macd_previous = none →
      (((macdFlags t).1 = true ↔ a > s) ∧ ((macdFlags t).2 = true ↔ a < s))) := by
  intro t
  constructor
  · intro a s p ha hs hp
    by_cases hps : p > s <;> by_cases has : a > s
    · have h1 : ¬a < s := by linarith
      have h2 : ¬a ≤ s := by linarith
      simp [macdFlags, ha, hs, hp, hps, has, h1, h2]
    · have h2 : a ≤ s := not_lt.mp has
      simp [macdFlags, ha, hs, hp, hps, has, h2]
    · simp [macdFlags, ha, hs, hp, hps, has]
    · have h2 : a ≤ s := not_lt.mp has
      simp [macdFlags, ha, hs, hp, hps, has, h2]
  · intro a s ha hs hp
    simp [macdFlags, ha, hs, hp]

/-- C5 witness: at MACD 2, signal 1, previous 0 the flags are (bull, no
bear), matching the amended characterisation. -/
theorem c5_witness :
    ((macdFlags { macd := some 2, macd_signal := some 1, macd_previous := some 0 }).1 = true
      ↔ (2 : ℚ) > 1)
    ∧ ((macdFlags { macd := some 2, macd_signal := some 1, macd_previous := some 0 }).2 = true
      ↔ ((2 : ℚ) ≤ 1 ∧ ((2 : ℚ) < 1 ∨ (0 : ℚ) > 1))) :=
  (c5_macd_crossover_amended { macd := some 2, macd_signal := some 1, macd_previous := some 0 }).1
    2 1 0 rfl rfl rfl

lemma swGC : signedWeight "Golden Cross" = 2.5 := rfl

lemma swDC : signedWeight "Death Cross" = -2.5 := rfl

lemma swSU : signedWeight "Strong Uptrend" = 1.8 := rfl

lemma swSD : signedWeight "Strong Downtrend" = -1.8 := rfl

lemma swBVS : signedWeight "Bullish Volume Surge" = 1.5 := rfl

lemma swBVD : signedWeight "Bearish Volume Dump" = -1.5 := rfl

lemma swMBC : signedWeight "MACD Bullish Crossover" = 1.3 := rfl

lemma swMBRC : signedWeight "MACD Bearish Crossover" = -1.3 := rfl

lemma swRO : signedWeight "RSI Oversold" = 1 := rfl

lemma swROB : signedWeight "RSI Overbought" = -1 := rfl

/-- The weighted accumulation equals the signed-weight sum over the detected
list, for arbitrary values of the ten detection flags. -/
lemma netSumBools (g d u dn rl rh mb mbr vs vd : Bool) :
    ((if g then (2.5 : ℚ) else 0) + (if u then (1.8 : ℚ) else 0) + (if rl then (1.0 : ℚ) else 0)
      + (if mb then (1.3 : ℚ) else 0) + (if vs then (1.5 : ℚ) else 0))
    - ((if d then (2.5 : ℚ) else 0) + (if u then 0 else if dn then (1.8 : ℚ) else 0)
      + (if rl then 0 else if rh then (1.0 : ℚ) else 0)
      + (if mb then 0 else if mbr then (1.3 : ℚ) else 0)
      + (if vs then 0 else if vd then (1.5 : ℚ) else 0))
    = (((if g then ["Golden Cross"] else []) ++ (if d then ["Death Cross"] else [])
        ++ (if u then ["Strong Uptrend"] else if dn then ["Strong Downtrend"] else [])
        ++ (if rl then ["RSI Oversold"] else if rh then ["RSI Overbought"] else [])
        ++ (if mb then ["MACD Bullish Crossover"]
            else if mbr then ["MACD Bearish Crossover"] else [])
        ++ (if vs then ["Bullish Volume Surge"]
            else if vd then ["Bearish Volume Dump"] else [])).map signedWeight).sum := by
  simp only [List.map_append, List.sum_append]
  have s1 : (((if g then ["Golden Cross"] else []) : List String).map signedWeight).sum
      = (if g then (2.5 : ℚ) else 0) := by cases g <;> simp [swGC]
  have s2 : (((if d then ["Death Cross"] else []) : List String).map signedWeight).sum
      = (if d then (-2.5 : ℚ) else 0) := by cases d <;> simp [swDC]
  have s3 : (((if u then ["Strong Uptrend"] else if dn then ["Strong Downtrend"] else [])
        : List String).map signedWeight).sum
      = (if u then (1.8 : ℚ) else if dn then (-1.8 : ℚ) else 0) := by
    cases u <;> cases dn <;> simp [swSU, swSD]
  have s4 : (((if rl then ["RSI Oversold"] else if rh then ["RSI Overbought"] else [])
        : List String).map signedWeight).sum
      = (if rl then (1 : ℚ) else if rh then (-1 : ℚ) else 0) := by
    cases rl <;> cases rh <;> simp [swRO, swROB]
  have s5 : (((if mb then ["MACD Bullish Crossover"]
          else if mbr then ["MACD Bearish Crossover"] else []) : List String).map signedWeight).sum
      = (if mb then (1.3 : ℚ) else if mbr then (-1.3 : ℚ) else 0) := by
    cases mb <;> cases mbr <;> simp [swMBC, swMBRC]
  have s6 : (((if vs then ["Bullish Volume Surge"]
          else if vd then ["Bearish Volume Dump"] else []) : List String).map signedWeight).sum
      = (if vs then (1.5 : ℚ) else if vd then (-1.5 : ℚ) else 0) := by
    cases vs <;> cases vd <;> simp [swBVS, swBVD]
  rw [s1, s2, s3, s4, s5, s6]
  have f1 : (if g then (2.5 : ℚ) else 0) - (if d then (2.5 : ℚ) else 0)
      = (if g then (2.5 : ℚ) else 0) + (if d then (-2.5 : ℚ) else 0) := by
    cases g <;> cases d <;> norm_num
  have f2 : (if u then (1.8 : ℚ) else 0) - (if u then 0 else if dn then (1.8 : ℚ) else 0)
      = (if u then (1.8 : ℚ) else if dn then (-1.8 : ℚ) else 0) := by
    cases u <;> cases dn <;> norm_num
  have f3 : (if rl then (1.0 : ℚ) else 0) - (if rl then 0 else if rh then (1.0 : ℚ) else 0)
      = (if rl then (1 : ℚ) else if rh then (-1 : ℚ) else 0) := by
    cases rl <;> cases rh <;> norm_num
  have f4 : (if mb then (1.3 : ℚ) else 0) - (if mb then 0 else if mbr then (1.3 : ℚ) else 0)
      = (if mb then (1.3 : ℚ) else if mbr then (-1.3 : ℚ) else 0) := by
    cases mb <;> cases mbr <;> norm_num
  have f5 : (if vs then (1.5 : ℚ) else 0) - (if vs then 0 else if vd then (1.5 : ℚ) else 0)
      = (if vs then (1.5 : ℚ) else if vd then (-1.5 : ℚ) else 0) := by
    cases vs <;> cases vd <;> norm_num
  linarith [f1, f2, f3, f4, f5]

/-- C6.  The weighted non-linear pattern score is
`clamp(round2(3 + tanh(net * 0.5) * 2))` where `net` is the bullish minus
bearish weight total, and that total equals the sum of the per-pattern
signed significance weights over the detected list. -/
theorem c6_weighted_tanh_score : ∀ t : Tech,
    ((computePatternScoreW t).2).score
      = max 1 (min 5 (round2R (3
          + Real.tanh (((bullishWeight (derivePrevMas t)
              - bearishWeight (derivePrevMas t) : ℚ) : ℝ) * 0.5) * 2)))
    ∧ bullishWeight (derivePrevMas t) - bearishWeight (derivePrevMas t)
        = ((detectedRaw (derivePrevMas t)).map signedWeight).sum := by
  intro t
  refine ⟨rfl, ?_⟩
  unfold bullishWeight bearishWeight detectedRaw
  exact netSumBools _ _ _ _ _ _ _ _ _ _

/-- The C7 forward price history: 31 daily bars whose closes rise
monotonically from 1500 (the pattern-detection bar) by exactly +8% to 1620
over the following 30 bars. -/
def c7bars : List Bar :=
  [⟨some 1500⟩, ⟨some 1504⟩, ⟨some 1508⟩, ⟨some 1512⟩, ⟨some 1516⟩, ⟨some 1520⟩,
   ⟨some 1524⟩, ⟨some 1528⟩, ⟨some 1532⟩, ⟨some 1536⟩, ⟨some 1540⟩, ⟨some 1544⟩,
   ⟨some 1548⟩, ⟨some 1552⟩, ⟨some 1556⟩, ⟨some 1560⟩, ⟨some 1564⟩, ⟨some 1568⟩,
   ⟨some 1572⟩, ⟨some 1576⟩, ⟨some 1580⟩, ⟨some 1584⟩, ⟨some 1588⟩, ⟨some 1592⟩,
   ⟨some 1596⟩, ⟨some 1600⟩, ⟨some 1604⟩, ⟨some 1608⟩, ⟨some 1612⟩, ⟨some 1616⟩,
   ⟨some 1620⟩]

/-- C7: on a bullish pattern of score 4.2 backtested against the
monotonically rising +8% history, `backtest_pattern` classifies the
direction as bullish but reports the prediction as incorrect with an actual
move of 0 — it takes the most recent bar as the reference price and scans
backwards in time, so the rise is never observed as a breakout. -/
theorem c7_backtest_on_rising_history :
    (backtestPattern c7bars 4.2 ["Strong Uptrend"] 30).direction = "bullish"
    ∧ (backtestPattern c7bars 4.2 ["Strong Uptrend"] 30).prediction_correct = false
    ∧ (backtestPattern c7bars 4.2 ["Strong Uptrend"] 30).actual_move = 0 := by
  with_unfolding_all decide

/-- If the bearish scan loop reports a breakout `(j, m)`, then some scanned
bar's close moved below the reference by at least the threshold and `m` is
the absolute value of that move. -/
lemma scanBreakout_bearish (p th : ℚ) : ∀ (l : List Bar) (i j : ℕ) (m : ℚ),
    scanBreakout "bearish" p th l i = some (j, m) →
    ∃ close : ℚ, Bar.mk (some close) ∈ l ∧ (close - p) / p ≤ -th
      ∧ m = |(close - p) / p| := by
  intro l
  induction l with
  | nil => intro i j m h; simp [scanBreakout] at h
  | cons b rest ih =>
    intro i j m h
    obtain ⟨bc⟩ := b
    rcases bc with _ | close
    · simp only [scanBreakout] at h
      obtain ⟨close, hmem, hle, hm⟩ := ih (i + 1) j m h
      exact ⟨close, List.mem_cons_of_mem _ hmem, hle, hm⟩
    · simp only [scanBreakout] at h
      have hs1 : ¬(("bearish" : String) = "bullish" ∧ (close - p) / p ≥ th) := by
        rintro ⟨hc, -⟩; exact absurd hc (by decide)
      have hs3 : ¬(("bearish" : String) = "neutral" ∧ |(close - p) / p| ≤ 0.03) := by
        rintro ⟨hc, -⟩; exact absurd hc (by decide)
      rw [if_neg hs1] at h
      by_cases hm2 : (close - p) / p ≤ -th
      · rw [if_pos ⟨trivial, hm2⟩] at h
        have hpair := Option.some.inj h
        have hmm : |(close - p) / p| = m := congrArg Prod.snd hpair
        exact ⟨close, List.mem_cons_self _ _, hm2, hmm.symm⟩
      · rw [if_neg (by rintro ⟨-, hc⟩; exact hm2 hc), if_neg hs3] at h
        obtain ⟨close2, hmem, hle, hm⟩ := ih (i + 1) j m h
        exact ⟨close2, List.mem_cons_of_mem _ hmem, hle, hm⟩

/-- C8.  Whenever `_find_breakout_day` locates a bearish breakout bar, the
returned actual move is the absolute value of that bar's (negative) move —
hence nonnegative — and `_evaluate_pattern_success` applied to it answers
`False` even though the price moved in the predicted bearish direction. -/
theorem c8_bearish_breakout_abs_move :
    ∀ (bars : List Bar) (p e : ℚ) (i : ℕ) (m : ℚ),
    findBreakoutDay bars p e "bearish" = (some i, m) →
    0 ≤ m ∧ evaluatePatternSuccess "bearish" m e = false
      ∧ ∃ close : ℚ, Bar.mk (some close) ∈ bars
          ∧ (close - p) / p ≤ -(|e| * 0.5) ∧ m = |(close - p) / p| := by
  intro bars p e i m h
  simp only [findBreakoutDay] at h
  by_cases hlen : bars.length < 2
  · rw [if_pos hlen] at h
    exact absurd (congrArg Prod.fst h) (by simp)
  · rw [if_neg hlen] at h
    rcases hscan : scanBreakout "bearish" p (|e| * 0.5)
        (bars.reverse.take (bars.length - 1)) 1 with _ | ⟨j, m0⟩
    · rw [hscan] at h
      rcases hlast : bars.getLast?.bind Bar.c with _ | fc
      · rw [hlast] at h
        exact absurd (congrArg Prod.fst h) (by simp)
      · rw [hlast] at h
        exact absurd (congrArg Prod.fst h) (by simp)
    · rw [hscan] at h
      obtain ⟨close, hmem, hle, hm⟩ :=
        scanBreakout_bearish p (|e| * 0.5) _ 1 j m0 hscan
      have hm0 : m0 = m := congrArg Prod.snd h
      subst hm0
      have h0 : 0 ≤ m0 := hm ▸ abs_nonneg _
      refine ⟨h0, ?_, close,
        List.mem_reverse.mp (List.mem_of_mem_take hmem), hle, hm⟩
      unfold evaluatePatternSuccess
      rw [if_neg (by decide), if_neg (by decide)]
      exact decide_eq_false (not_lt.mpr h0)

/-- The C8 witness bars: reference close 100, a bar 10% below it, and the
reference bar itself most recent. -/
def c8bars : List Bar := [⟨some 100⟩, ⟨some 90⟩, ⟨some 100⟩]

/-- C8 witness: with expected move −7% the scan finds the 90 close
(move −10%), returns its absolute value 0.1, and the success evaluator
answers `False`. -/
theorem c8_witness :
    0 ≤ (1/10 : ℚ) ∧ evaluatePatternSuccess "bearish" (1/10) (-0.07) = false
      ∧ ∃ close : ℚ, Bar.mk (some close) ∈ c8bars
          ∧ (close - 100) / 100 ≤ -(|(-0.07 : ℚ)| * 0.5)
          ∧ (1/10 : ℚ) = |(close - 100) / 100| :=
  c8_bearish_breakout_abs_move c8bars 100 (-0.07) 2 (1/10) (by with_unfolding_all decide)

/-- Keys of a dict after an upsert: the old keys plus the inserted key. -/
lemma dictUpsert_keys_mem {α : Type} (d : List (String × α)) (k : String) (v : α)
    (x : String) :
    x ∈ (dictUpsert d k v).map Prod.fst ↔ (x ∈ d.map Prod.fst ∨ x = k) := by
  unfold dictUpsert
  by_cases hany : d.any (fun kv => kv.1 = k)
  · rw [if_pos hany]
    have hkeys : (d.map fun kv => if kv.1 = k then (k, v) else kv).map Prod.fst
        = d.map Prod.fst := by
      rw [List.map_map]
      apply List.map_congr_left
      intro kv _
      by_cases hk : kv.1 = k
      · simp [hk]
      · simp [hk]
    rw [hkeys]
    constructor
    · exact Or.inl
    · rintro (hx | rfl)
      · exact hx
      · obtain ⟨kv, hkv, hk⟩ := List.any_eq_true.mp hany
        have : kv.1 ∈ d.map Prod.fst := List.mem_map_of_mem _ hkv
        rwa [of_decide_eq_true hk] at this
  · rw [if_neg hany]
    simp

/-- Unfolding of the loop body on a failed collection. -/
lemma analysesStep_error {collect : String → Except String RawData}
    {acc : List (String × TickerAnalysis)} {t : String} {e : String}
    (h : collect t = Except.error e) : analysesStep collect acc t = acc := by
  simp [analysesStep, h]

/-- Unfolding of the loop body on a successful collection. -/
lemma analysesStep_ok {collect : String → Except String RawData}
    {acc : List (String × TickerAnalysis)} {t : String} {d : RawData}
    (h : collect t = Except.ok d) :
    analysesStep collect acc t = dictUpsert acc t (analyzeTicker d) := by
  simp [analysesStep, h]

/-- Keys of the comparator's analyses dict: exactly the input tickers whose
collection succeeded. -/
lemma analysesList_keys (collect : String → Except String RawData) :
    ∀ (tickers : List String) (acc : List (String × TickerAnalysis)) (x : String),
    x ∈ (tickers.foldl (analysesStep collect) acc).map Prod.fst
      ↔ (x ∈ acc.map Prod.fst ∨ (x ∈ tickers ∧ (collect x).isOk = true)) := by
  intro tickers
  induction tickers with
  | nil => intro acc x; simp
  | cons t rest ih =>
    intro acc x
    rw [List.foldl_cons]
    rcases hc : collect t with e | d
    · rw [analysesStep_error hc, ih]
      constructor
      · rintro (hx | hx)
        · exact Or.inl hx
        · exact Or.inr ⟨List.mem_cons_of_mem _ hx.1, hx.2⟩
      · rintro (hx | ⟨hmem, hok⟩)
        · exact Or.inl hx
        · rcases List.mem_cons.mp hmem with rfl | hmem2
          · rw [hc] at hok; simp [Except.isOk, Except.toBool] at hok
          · exact Or.inr ⟨hmem2, hok⟩
    · rw [analysesStep_ok hc, ih, dictUpsert_keys_mem]
      constructor
      · rintro ((hx | rfl) | hx)
        · exact Or.inl hx
        · exact Or.inr ⟨List.mem_cons_self _ _, by rw [hc]; rfl⟩
        · exact Or.inr ⟨List.mem_cons_of_mem _ hx.1, hx.2⟩
      · rintro (hx | ⟨hmem, hok⟩)
        · exact Or.inl (Or.inl hx)
        · rcases List.mem_cons.mp hmem with rfl | hmem2
          · exact Or.inl (Or.inr rfl)
          · exact Or.inr ⟨hmem2, hok⟩

/-- C9.  `compare_stocks` never lets an exception escape (every outcome is a
returned value); a ticker appears in the analyses exactly when it was asked
for and its collection succeeded, so one failure excludes only that ticker;
and the explicit error result is returned exactly when fewer than 2 tickers
were successfully analyzed. -/
theorem c9_compare_partial_failure :
    ∀ (collect : String → Except String RawData) (tickers : List String),
    (∃ out, compareStocks collect tickers = Except.ok out)
    ∧ (∀ x, x ∈ (analysesList collect tickers).map Prod.fst
        ↔ (x ∈ tickers ∧ (collect x).isOk = true))
    ∧ ((analysesList collect tickers).length < 2 ↔
        compareStocks collect tickers
          = Except.ok (CompareOutcome.comparisonError "Insufficient data for comparison")) := by
  intro collect tickers
  refine ⟨?_, ?_, ?_⟩
  · unfold compareStocks
    by_cases h : (analysesList collect tickers).length < 2
    · rw [if_pos h]; exact ⟨_, rfl⟩
    · rw [if_neg h]; exact ⟨_, rfl⟩
  · intro x
    have := analysesList_keys collect tickers [] x
    simpa [analysesList] using this
  · unfold compareStocks
    by_cases h : (analysesList collect tickers).length < 2
    · rw [if_pos h]; simp [h]
    · rw [if_neg h]
      constructor
      · intro hcon; exact absurd hcon h
      · intro hcon
        exact absurd (Except.ok.injEq .. ▸ hcon) (by simp)

/-- The C10 snapshot: 201 recorded closes and no prior moving averages. -/
def c10tech : Tech := { daily_closes_full := some (List.replicate 201 1) }

set_option maxRecDepth 8000 in
/-- C10 counterexample: `compute_pattern_score` mutates its input — with 201
closes and `prev_ma_50` absent, the call adds a `prev_ma_50` value to the
snapshot (via `_derive_prev_mas`'s `setdefault`). -/
theorem c10_counterexample :
    ((computePatternScore c10tech).1).prev_ma_50 ≠ c10tech.prev_ma_50 := by
  have h : ((computePatternScore c10tech).1).prev_ma_50
      = some ((((List.replicate 201 (1 : ℚ)).drop 150).dropLast).sum / 50) := by
    show (derivePrevMas c10tech).prev_ma_50 = _
    simp [derivePrevMas, c10tech]
  rw [h]
  simp [c10tech]

/-- C10 amended: `compute_pattern_score` leaves every field of its input
unchanged except that, when `daily_closes_full` holds at least 201 closes,
it may fill the absent `prev_ma_50` / `prev_ma_200` fields with the derived
prior averages; present prior averages are kept, and with fewer than 201 (or
no) closes the snapshot is returned untouched. -/
theorem c10_mutation_amended : ∀ t : Tech,
    (computePatternScore t).1 = derivePrevMas t
    ∧ ((computePatternScore t).1).current_price = t.current_price
    ∧ ((computePatternScore t).1).volume = t.volume
    ∧ ((computePatternScore t).1).avg_volume_20d = t.avg_volume_20d
    ∧ ((computePatternScore t).1).ma_50 = t.ma_50
    ∧ ((computePatternScore t).1).ma_200 = t.ma_200
    ∧ ((computePatternScore t).1).rsi = t.rsi
    ∧ ((computePatternScore t).1).macd = t.macd
    ∧ ((computePatternScore t).1).macd_signal = t.macd_signal
    ∧ ((computePatternScore t).1).macd_previous = t.macd_previous
    ∧ ((computePatternScore t).1).volatility_30d = t.volatility_30d
    ∧ ((computePatternScore t).1).price_change_1m = t.price_change_1m
    ∧ ((computePatternScore t).1).daily_closes_full = t.daily_closes_full
    ∧ (∀ v, t.prev_ma_50 = some v → ((computePatternScore t).1).prev_ma_50 = some v)
    ∧ (∀ v, t.prev_ma_200 = some v → ((computePatternScore t).1).prev_ma_200 = some v)
    ∧ (∀ closes, t.daily_closes_full = some closes → closes.length < 201 →
        (computePatternScore t).1 = t)
    ∧ (t.daily_closes_full = none → (computePatternScore t).1 = t) := by
  intro t
  have hfst : (computePatternScore t).1 = derivePrevMas t := rfl
  rw [hfst]
  rcases hd : t.daily_closes_full with _ | closes
  · have hder : derivePrevMas t = t := by simp [derivePrevMas, hd]
    rw [hder]
    exact ⟨rfl, rfl, rfl, rfl, rfl, rfl, rfl, rfl, rfl, rfl, rfl, rfl, hd,
      fun v hv => hv, fun v hv => hv, fun cl hcl hlen => rfl, fun h => rfl⟩
  · by_cases hl : closes.length < 201
    · have hder : derivePrevMas t = t := by simp [derivePrevMas, hd, hl]
      rw [hder]
      exact ⟨rfl, rfl, rfl, rfl, rfl, rfl, rfl, rfl, rfl, rfl, rfl, rfl, hd,
        fun v hv => hv, fun v hv => hv, fun cl hcl hlen => rfl, fun h => rfl⟩
    · refine ⟨rfl, ?_, ?_, ?_, ?_, ?_, ?_, ?_, ?_, ?_, ?_, ?_, ?_, ?_, ?_, ?_, ?_⟩
      · simp [derivePrevMas, hd, hl]
      · simp [derivePrevMas, hd, hl]
      · simp [derivePrevMas, hd, hl]
      · simp [derivePrevMas, hd, hl]
      · simp [derivePrevMas, hd, hl]
      · simp [derivePrevMas, hd, hl]
      · simp [derivePrevMas, hd, hl]
      · simp [derivePrevMas, hd, hl]
      · simp [derivePrevMas, hd, hl]
      · simp [derivePrevMas, hd, hl]
      · simp [derivePrevMas, hd, hl]
      · simp [derivePrevMas, hd, hl]
      · intro v hv; simp [derivePrevMas, hd, hl, hv]
      · intro v hv; simp [derivePrevMas, hd, hl, hv]
      · intro cl hcl hlen
        have hcc := Option.some.inj hcl
        subst hcc
        omega
      · intro hnone
        exact absurd hnone (by simp)

end StockIntel
